import Mathlib

/-!
Shallow embedding of the ESP32 traffic-detection client firmware
(`src/esp32_traffic_client.ino` and the near-duplicate listing
`src/unnamed/part_000`).

The firmware is a periodic loop: capture a JPEG frame, POST it as
multipart/form-data to an inference server, parse the JSON reply and
drive two LEDs (RED on GPIO 15, GREEN on GPIO 16), with a
consecutive-failure counter and a fail-open-to-GREEN policy.

Modelling conventions:
- LED levels are `Bool` (`true` = HIGH).
- `millis()` is the 32-bit truncation of an unbounded time `t : Nat`
  (`unsigned long` is 32 bits on the ESP32), and the expression
  `millis() - lastCapture` is unsigned 32-bit wrapping subtraction.
- The external ArduinoJson library is embedded through its interface:
  the result of `deserializeJson` is an `Option Json` (`none` = parse
  error), and `doc[key] as const char*` is `decisionField`.
- The HTTP stack is embedded through its interface: `SendEnv` carries
  the outcome of `malloc`, of `http.POST`, and the parsed body.
- The failure counter `consecutiveFailures` is a C `int` (32 bits on
  the ESP32): the model stores its bit pattern as a `Nat` below 2 ^ 32,
  increments it with the wrapping `incWrap32` (the source has no clamp),
  reads its signed value through `toSigned32`, and performs the
  threshold comparison on the signed value, so the overflow behaviour
  of the unclamped `++` is part of the state machine itself.
-/

namespace TrafficClient

/-- `#define MAX_FAILURES 5` (both listings). -/
def MAX_FAILURES : Nat := 5

/-- `#define CAPTURE_INTERVAL_MS 3000`. -/
def CAPTURE_INTERVAL_MS : Nat := 3000

/-- `HTTP_CODE_OK` from the HTTPClient library: 200. -/
def HTTP_CODE_OK : Int := 200

/-- Width of `unsigned long` on the ESP32 (32 bits): 2 ^ 32. -/
def W : Nat := 4294967296

/-- `millis()` at unbounded real time `t` milliseconds after boot. -/
def millisOf (t : Nat) : Nat := t % W

/-- Unsigned 32-bit subtraction `a - b` (wrapping), for `a b < W`. -/
def usub32 (a b : Nat) : Nat := (a + (W - b % W)) % W

/-- Two's-complement reading of a 32-bit pattern (2147483648 = 2 ^ 31),
the value of the C `int` whose bit pattern is `n`. -/
def toSigned32 (n : Nat) : Int :=
  if n < 2147483648 then (n : Int) else (n : Int) - 4294967296

/-- `consecutiveFailures++` on the 32-bit `int`: the bit pattern wraps
modulo 2 ^ 32; the source has no clamp. -/
def incWrap32 (n : Nat) : Nat := (n + 1) % W

/-! JSON documents, as produced by ArduinoJson `deserializeJson`. -/

inductive Json where
  | null
  | bool (b : Bool)
  | num (n : Int)
  | str (s : String)
  | arr (xs : List Json)
  | obj (fields : List (String × Json))

/-- Key lookup in a JSON object, first match wins (ArduinoJson `doc[key]`). -/
def jsonLookup : List (String × Json) → String → Option Json
  | [], _ => none
  | (k, v) :: rest, key => if k = key then some v else jsonLookup rest key

/-- `doc["decision"]` read `as const char*`, then wrapped in `String(...)`:
a string value yields that string; a missing field, a non-string value or a
non-object document yields the null pointer, and `String(NULL)` is `""`. -/
def decisionField : Json → String
  | .obj fields =>
    match jsonLookup fields "decision" with
    | some (.str s) => s
    | _ => ""
  | _ => ""

/-! Multipart encoding, from `sendImageToServer` (identical in both listings). -/

/-- `String boundary = "----ESP32Boundary";` -/
def boundary : String := "----ESP32Boundary"

/-- The `head` string built in `sendImageToServer`. -/
def headStr : String :=
  "--" ++ boundary ++ "\r\n"
    ++ "Content-Disposition: form-data; name=\"image\"; filename=\"capture.jpg\"\r\n"
    ++ "Content-Type: image/jpeg\r\n\r\n"

/-- The `tail` string built in `sendImageToServer`. -/
def tailStr : String := "\r\n--" ++ boundary ++ "--\r\n"

/-- The value of the `Content-Type` request header set by the code. -/
def contentTypeHeader : String := "multipart/form-data; boundary=" ++ boundary

/-- Bytes of an ASCII string (every character of the two literals is ASCII). -/
def strBytes (s : String) : List Nat := s.data.map Char.toNat

def headBytes : List Nat := strBytes headStr

def tailBytes : List Nat := strBytes tailStr

/-- The request body assembled by the three `memcpy` calls:
head bytes, then the raw image bytes, then tail bytes. -/
def buildBody (img : List Nat) : List Nat := headBytes ++ img ++ tailBytes

/-- Multipart head layout written in the spec (§4.3), for the given
boundary token. Spec-side definition, to be compared with `headStr`. -/
def specMultipartHead (b : String) : String :=
  "--" ++ b ++ "\r\n"
    ++ "Content-Disposition: form-data; name=\"image\"; filename=\"capture.jpg\"\r\n"
    ++ "Content-Type: image/jpeg\r\n"
    ++ "\r\n"

/-- Multipart tail layout written in the spec (§4.3). Spec-side definition. -/
def specMultipartTail (b : String) : String := "\r\n--" ++ b ++ "--\r\n"

/-- Request header layout written in the spec (§4.3). Spec-side definition. -/
def specContentType (b : String) : String := "multipart/form-data; boundary=" ++ b

/-! The upload call `sendImageToServer`, embedded through the interface of
the HTTP stack and of `malloc`. -/

/-- Environment of one `sendImageToServer` call: whether `malloc` succeeds,
the value returned by `http.POST` (negative values are the HTTPClient
transport-error codes), and the `deserializeJson` result of the response
body when the status is 200 (`none` = parse error). -/
structure SendEnv where
  allocOk : Bool
  httpCode : Int
  body : Option Json

/-- Observable behaviour of one `sendImageToServer` call:
`totalLen` is the argument passed to `malloc` (computed before the
allocation as head length + image length + tail length), `postAttempted`
records whether `http.POST` was reached, `result` is the returned string. -/
structure SendTrace where
  totalLen : Nat
  postAttempted : Bool
  result : String
deriving DecidableEq, Repr

/-- `sendImageToServer(imageData, imageLen)` for a frame of `imageLen`
bytes under environment `env`, following the code line by line:
compute `totalLen`; on `malloc` failure return `"ERROR"` without the POST;
on a non-200 status return `"ERROR"`; on 200 with a JSON parse error
return `"ERROR"`; otherwise return `String(doc["decision"])`. -/
def sendImageToServer (imageLen : Nat) (env : SendEnv) : SendTrace :=
  let totalLen := headStr.length + imageLen + tailStr.length
  if env.allocOk = false then
    { totalLen := totalLen, postAttempted := false, result := "ERROR" }
  else if env.httpCode = HTTP_CODE_OK then
    match env.body with
    | none => { totalLen := totalLen, postAttempted := true, result := "ERROR" }
    | some doc => { totalLen := totalLen, postAttempted := true, result := decisionField doc }
  else
    { totalLen := totalLen, postAttempted := true, result := "ERROR" }

/-! The control-loop state machine. -/

/-- Decision token of a cycle, as the spec names it. -/
inductive Decision where
  | RED
  | GREEN
  | UNKNOWN
deriving DecidableEq, Repr

/-- The decision the loop reads off a `sendImageToServer` result string:
the `if (decision == "RED") ... else if (decision == "GREEN") ... else`
chain at the end of `loop()`. -/
def decisionOfString (s : String) : Decision :=
  if s = "RED" then .RED else if s = "GREEN" then .GREEN else .UNKNOWN

/-- Mutable state of the firmware: the two LED output bits, the
`consecutiveFailures` counter and the `lastCapture` timestamp.
`consecutiveFailures` holds the 32-bit bit pattern of the C `int`
(a `Nat` kept below 2 ^ 32 by the operations; signed value
`toSigned32 consecutiveFailures`). -/
structure ClientState where
  redLed : Bool
  greenLed : Bool
  consecutiveFailures : Nat
  lastCapture : Nat
deriving DecidableEq, Repr

/-- Result of a `handleFailure()` call: the final state together with the
sequence of (RED, GREEN) LED levels written during the call. -/
structure FailureTrace where
  state : ClientState
  ledWrites : List (Bool × Bool)
deriving DecidableEq, Repr

/-- `handleFailure()` (identical in both listings): increment the `int`
counter (32-bit wrapping, no clamp) and compare its signed value to the
threshold; at or above `MAX_FAILURES` write RED LOW, GREEN HIGH; below the
threshold blink both LEDs HIGH and then both LOW. -/
def handleFailure (st : ClientState) : FailureTrace :=
  let n := incWrap32 st.consecutiveFailures
  if (MAX_FAILURES : Int) ≤ toSigned32 n then
    { state := { st with consecutiveFailures := n, redLed := false, greenLed := true },
      ledWrites := [(false, true)] }
  else
    { state := { st with consecutiveFailures := n, redLed := false, greenLed := false },
      ledWrites := [(true, true), (false, false)] }

/-- The LED/counter update at the end of `loop()` applied to the string
returned by `sendImageToServer`. -/
def applyDecision (st : ClientState) (r : String) : ClientState :=
  if r = "RED" then
    { st with redLed := true, greenLed := false, consecutiveFailures := 0 }
  else if r = "GREEN" then
    { st with redLed := false, greenLed := true, consecutiveFailures := 0 }
  else
    (handleFailure st).state

/-- Frame-buffer operations performed during one cycle
(`esp_camera_fb_get` success / `esp_camera_fb_return`). -/
inductive FrameEvent where
  | acquire
  | release
deriving DecidableEq, Repr

/-- Observable behaviour of one fired capture cycle. -/
structure CycleTrace where
  state : ClientState
  frameEvents : List FrameEvent
  didUpload : Bool
deriving DecidableEq, Repr

/-- One fired capture cycle (the body of the timing-gate `if` in `loop()`),
at real time `t`: re-arm `lastCapture`, call `esp_camera_fb_get`
(`frame` is `some len` on success, carrying the frame length), on failure
run `handleFailure` and return; otherwise upload, release the frame
unconditionally (the release precedes the decision branch), and apply the
decision. -/
def runCycle (st : ClientState) (t : Nat) (frame : Option Nat) (env : SendEnv) : CycleTrace :=
  let st0 := { st with lastCapture := millisOf t }
  match frame with
  | none =>
    { state := (handleFailure st0).state, frameEvents := [], didUpload := false }
  | some len =>
    let send := sendImageToServer len env
    { state := applyDecision st0 send.result,
      frameEvents := [.acquire, .release],
      didUpload := send.postAttempted }

/-- Decision produced by a cycle with the given camera result and
environment (UNKNOWN on camera failure, else read off the upload result). -/
def cycleOutcome (frame : Option Nat) (env : SendEnv) : Decision :=
  match frame with
  | none => .UNKNOWN
  | some len => decisionOfString (sendImageToServer len env).result

/-- Observable behaviour of one `loop()` iteration. -/
structure LoopTrace where
  state : ClientState
  reconnectAttempted : Bool
  frameEvents : List FrameEvent
  didUpload : Bool
  fired : Bool
deriving DecidableEq, Repr

/-- One iteration of `loop()` in `src/esp32_traffic_client.ino`: on Wi-Fi
loss it calls `connectWiFi()` and then FALLS THROUGH to the timing gate
(there is no `return` in that branch), so the capture cycle can still fire
in the same iteration. -/
def loopIterIno (st : ClientState) (wifiConnected : Bool) (t : Nat)
    (frame : Option Nat) (env : SendEnv) : LoopTrace :=
  let recon := !wifiConnected
  if CAPTURE_INTERVAL_MS ≤ usub32 (millisOf t) st.lastCapture then
    let c := runCycle st t frame env
    { state := c.state, reconnectAttempted := recon, frameEvents := c.frameEvents,
      didUpload := c.didUpload, fired := true }
  else
    { state := st, reconnectAttempted := recon, frameEvents := [],
      didUpload := false, fired := false }

/-- One iteration of `loop()` in `src/unnamed/part_000`: on Wi-Fi loss it
calls `WiFi.begin`, delays, and RETURNS, skipping the capture cycle. -/
def loopIterPart000 (st : ClientState) (wifiConnected : Bool) (t : Nat)
    (frame : Option Nat) (env : SendEnv) : LoopTrace :=
  if wifiConnected = false then
    { state := st, reconnectAttempted := true, frameEvents := [],
      didUpload := false, fired := false }
  else if CAPTURE_INTERVAL_MS ≤ usub32 (millisOf t) st.lastCapture then
    let c := runCycle st t frame env
    { state := c.state, reconnectAttempted := false, frameEvents := c.frameEvents,
      didUpload := c.didUpload, fired := true }
  else
    { state := st, reconnectAttempted := false, frameEvents := [],
      didUpload := false, fired := false }

/-- Folding a sequence of fired cycles (each given as time, camera result,
environment) through the state machine. -/
def runCycles (st : ClientState) (xs : List (Nat × Option Nat × SendEnv)) : ClientState :=
  xs.foldl (fun s x => (runCycle s x.1 x.2.1 x.2.2).state) st

/-- Bit pattern of the counter after `k` consecutive failing cycles
starting from 0 (repeated `incWrap32`, as `handleFailure` performs). -/
def streakAfter (k : Nat) : Nat := incWrap32^[k] 0

/-! Helper lemmas about the embedded operations. -/

theorem incWrap32_of_lt (p : Nat) (h : p + 1 < W) : incWrap32 p = p + 1 := by
  simp only [incWrap32, W] at h ⊢
  omega

theorem toSigned32_of_lt (n : Nat) (h : n < 2147483648) : toSigned32 n = n := by
  simp only [toSigned32]
  rw [if_pos h]

theorem toSigned32_incWrap32 (p : Nat) (h1 : p < W) (h2 : p ≠ 2147483647) :
    toSigned32 (incWrap32 p) = toSigned32 p + 1 := by
  simp only [toSigned32, incWrap32, W] at h1 h2 ⊢
  split <;> split <;> omega

theorem handleFailure_consecutiveFailures (st : ClientState) :
    (handleFailure st).state.consecutiveFailures = incWrap32 st.consecutiveFailures := by
  simp only [handleFailure]
  split <;> rfl

theorem handleFailure_lastCapture (st : ClientState) :
    (handleFailure st).state.lastCapture = st.lastCapture := by
  simp only [handleFailure]
  split <;> rfl

theorem handleFailure_at_threshold (st : ClientState)
    (h : (MAX_FAILURES : Int) ≤ toSigned32 (incWrap32 st.consecutiveFailures)) :
    (handleFailure st).state.redLed = false ∧ (handleFailure st).state.greenLed = true := by
  simp only [handleFailure]
  rw [if_pos h]
  exact ⟨rfl, rfl⟩

theorem threshold_of_le (p : Nat) (hlo : MAX_FAILURES ≤ p + 1) (hhi : p + 1 ≤ 2147483647) :
    (MAX_FAILURES : Int) ≤ toSigned32 (incWrap32 p) := by
  rw [incWrap32_of_lt p (by simp only [W]; omega), toSigned32_of_lt _ (by omega)]
  simp only [MAX_FAILURES] at hlo ⊢
  omega

theorem decisionOfString_unknown_iff (s : String) :
    decisionOfString s = .UNKNOWN ↔ (s ≠ "RED" ∧ s ≠ "GREEN") := by
  unfold decisionOfString
  split
  · simp_all
  · split <;> simp_all

theorem applyDecision_unknown (st : ClientState) (s : String)
    (h1 : s ≠ "RED") (h2 : s ≠ "GREEN") :
    applyDecision st s = (handleFailure st).state := by
  unfold applyDecision
  rw [if_neg h1, if_neg h2]

theorem send_result_of_allocFail (len : Nat) (env : SendEnv) (h : env.allocOk = false) :
    (sendImageToServer len env).result = "ERROR" := by
  unfold sendImageToServer
  rw [if_pos h]

theorem send_result_of_badStatus (len : Nat) (env : SendEnv) (h : env.httpCode ≠ HTTP_CODE_OK) :
    (sendImageToServer len env).result = "ERROR" := by
  unfold sendImageToServer
  rcases env with ⟨a, c, b⟩
  cases a
  · rfl
  · simp only
    rw [if_neg (by simp), if_neg h]

theorem send_result_of_parseFail (len : Nat) (env : SendEnv)
    (ha : env.allocOk = true) (hc : env.httpCode = HTTP_CODE_OK) (hb : env.body = none) :
    (sendImageToServer len env).result = "ERROR" := by
  unfold sendImageToServer
  rcases env with ⟨a, c, b⟩
  simp only at ha hc hb
  subst ha hc hb
  rfl

theorem runCycle_state_of_unknown (st : ClientState) (t : Nat)
    (frame : Option Nat) (env : SendEnv) (h : cycleOutcome frame env = .UNKNOWN) :
    (runCycle st t frame env).state
      = (handleFailure { st with lastCapture := millisOf t }).state := by
  cases frame with
  | none => rfl
  | some len =>
    unfold cycleOutcome at h
    obtain ⟨h1, h2⟩ := (decisionOfString_unknown_iff _).mp h
    unfold runCycle
    simp only
    rw [applyDecision_unknown _ _ h1 h2]

theorem runCycle_lastCapture (st : ClientState) (t : Nat)
    (frame : Option Nat) (env : SendEnv) :
    (runCycle st t frame env).state.lastCapture = millisOf t := by
  cases frame with
  | none =>
    unfold runCycle
    simp only
    rw [handleFailure_lastCapture]
  | some len =>
    unfold runCycle applyDecision
    simp only
    split
    · rfl
    · split
      · rfl
      · rw [handleFailure_lastCapture]

theorem failOpen_handleFailure (s : ClientState)
    (hs : MAX_FAILURES ≤ s.consecutiveFailures + 1)
    (hb : s.consecutiveFailures + 1 ≤ 2147483647) :
    (handleFailure s).state.consecutiveFailures = s.consecutiveFailures + 1
    ∧ (handleFailure s).state.redLed = false
    ∧ (handleFailure s).state.greenLed = true := by
  have hth := threshold_of_le s.consecutiveFailures hs hb
  obtain ⟨hr, hg⟩ := handleFailure_at_threshold s hth
  refine ⟨?_, hr, hg⟩
  rw [handleFailure_consecutiveFailures]
  exact incWrap32_of_lt _ (by simp only [W]; omega)

theorem failOpen_step (s : ClientState) (t : Nat) (frame : Option Nat) (env : SendEnv)
    (hs : MAX_FAILURES ≤ s.consecutiveFailures)
    (hb : s.consecutiveFailures + 1 ≤ 2147483647)
    (h : cycleOutcome frame env = .UNKNOWN) :
    (runCycle s t frame env).state.consecutiveFailures = s.consecutiveFailures + 1
      ∧ (runCycle s t frame env).state.redLed = false
      ∧ (runCycle s t frame env).state.greenLed = true := by
  rw [runCycle_state_of_unknown s t frame env h]
  exact failOpen_handleFailure { s with lastCapture := millisOf t }
    (show MAX_FAILURES ≤ s.consecutiveFailures + 1 by omega)
    (show s.consecutiveFailures + 1 ≤ 2147483647 from hb)

theorem failOpen_fold (xs : List (Nat × Option Nat × SendEnv)) (s : ClientState)
    (hs : MAX_FAILURES ≤ s.consecutiveFailures)
    (hbound : s.consecutiveFailures + xs.length ≤ 2147483647)
    (hr : s.redLed = false) (hg : s.greenLed = true)
    (hall : ∀ x ∈ xs, cycleOutcome x.2.1 x.2.2 = .UNKNOWN) :
    (runCycles s xs).redLed = false ∧ (runCycles s xs).greenLed = true := by
  induction xs generalizing s with
  | nil => exact ⟨hr, hg⟩
  | cons x xs ih =>
    simp only [List.length_cons] at hbound
    have hx := hall x (List.mem_cons_self x xs)
    obtain ⟨h1, h2, h3⟩ := failOpen_step s x.1 x.2.1 x.2.2 hs (by omega) hx
    exact ih ((runCycle s x.1 x.2.1 x.2.2).state) (by rw [h1]; omega) (by rw [h1]; omega)
      h2 h3 (fun y hy => hall y (List.mem_cons_of_mem x hy))

theorem streakAfter_eq (k : Nat) : streakAfter k = k % W := by
  induction k with
  | zero => rfl
  | succ n ih =>
    unfold streakAfter at ih ⊢
    rw [Function.iterate_succ_apply', ih]
    unfold incWrap32 W
    omega

theorem runCycle_none_state (st : ClientState) (t : Nat) (env : SendEnv) :
    (runCycle st t none env).state
      = (handleFailure { st with lastCapture := millisOf t }).state := rfl

theorem runCycle_some_state (st : ClientState) (t : Nat) (len : Nat) (env : SendEnv) :
    (runCycle st t (some len) env).state
      = applyDecision { st with lastCapture := millisOf t }
          (sendImageToServer len env).result := rfl

theorem applyDecision_definite (st : ClientState) (r : String)
    (h : r = "RED" ∨ r = "GREEN") :
    (applyDecision st r).consecutiveFailures = 0 := by
  unfold applyDecision
  rcases h with h | h <;> subst h
  · rw [if_pos rfl]
  · rw [if_neg (by decide), if_pos rfl]

theorem send_result_ok (len : Nat) (j : Json) :
    (sendImageToServer len ⟨true, HTTP_CODE_OK, some j⟩).result = decisionField j := rfl

/-! Claim theorems. -/

/-- C5: for every input JPEG buffer, the encoded multipart body has length
head-length + L + tail-length, the bytes between the head and tail offsets
are the original buffer, the head and tail follow the byte-exact layout of
the spec (part name image, filename capture.jpg, content-type image/jpeg),
and the boundary token of the Content-Type request header is the boundary
used in the body. -/
theorem c5_multipart_roundtrip (img : List Nat) :
    (buildBody img).length = headBytes.length + img.length + tailBytes.length
    ∧ ((buildBody img).drop headBytes.length).take img.length = img
    ∧ (buildBody img).take headBytes.length = headBytes
    ∧ (buildBody img).drop (headBytes.length + img.length) = tailBytes
    ∧ headStr = specMultipartHead boundary
    ∧ tailStr = specMultipartTail boundary
    ∧ contentTypeHeader = specContentType boundary
    ∧ headStr.length = headBytes.length
    ∧ tailStr.length = tailBytes.length := by
  refine ⟨?_, ?_, ?_, ?_, rfl, rfl, rfl, rfl, rfl⟩
  · simp [buildBody]
    omega
  · rw [buildBody, List.append_assoc, List.drop_left, List.take_left]
  · rw [buildBody, List.append_assoc, List.take_left]
  · have h : headBytes.length + img.length = (headBytes ++ img).length := by
      simp
    rw [buildBody, h, List.drop_left]

/-- C7: in every cycle, a successful acquisition is followed by exactly one
release before the cycle ends, on every path (the release is unconditional
after the upload call returns, which covers transport failure, non-OK
status and parse failure); a failed acquisition performs no release. -/
theorem c7_frame_lifecycle (st : ClientState) (t : Nat)
    (frame : Option Nat) (env : SendEnv) :
    (∀ len, frame = some len →
      (runCycle st t frame env).frameEvents = [.acquire, .release]
      ∧ (runCycle st t frame env).frameEvents.count .release = 1
      ∧ (runCycle st t frame env).frameEvents.count .acquire = 1)
    ∧ (frame = none → (runCycle st t frame env).frameEvents = []) := by
  constructor
  · intro len h
    subst h
    refine ⟨rfl, ?_, ?_⟩ <;> rfl
  · intro h
    subst h
    rfl

/-- C7 witness: a concrete successful acquisition yields the event list
acquire-then-release with exactly one release. -/
theorem c7_witness :
    (runCycle ⟨false, false, 0, 0⟩ 0 (some 5) ⟨true, 200, none⟩).frameEvents
        = [.acquire, .release]
    ∧ (runCycle ⟨false, false, 0, 0⟩ 0 (some 5) ⟨true, 200, none⟩).frameEvents.count .release = 1
    ∧ (runCycle ⟨false, false, 0, 0⟩ 0 (some 5) ⟨true, 200, none⟩).frameEvents.count .acquire = 1 :=
  (c7_frame_lifecycle ⟨false, false, 0, 0⟩ 0 (some 5) ⟨true, 200, none⟩).1 5 rfl

/-- C8 counterexample: the claim says allocation failure yields an error
distinguishable from a network error, but the call returns the same string
"ERROR" for an allocation failure as for a transport-level POST failure
(HTTPClient code -1), so the caller cannot distinguish the two. -/
theorem c8_counterexample :
    (sendImageToServer 10 ⟨false, 200, none⟩).result
        = (sendImageToServer 10 ⟨true, -1, none⟩).result
    ∧ (sendImageToServer 10 ⟨false, 200, none⟩).postAttempted = false
    ∧ (sendImageToServer 10 ⟨true, -1, none⟩).postAttempted = true := by
  refine ⟨?_, rfl, ?_⟩ <;> decide

/-- C8 amended: the body size is computed before allocation as head length
+ image length + tail length and exactly that size is requested from
malloc; on allocation failure the call returns the generic "ERROR" result
(the same value as for network errors, hence not distinguishable) without
attempting the network POST. -/
theorem c8_allocation_amended (len : Nat) (env : SendEnv) :
    (sendImageToServer len env).totalLen = headStr.length + len + tailStr.length
    ∧ (env.allocOk = false →
        (sendImageToServer len env).postAttempted = false
        ∧ (sendImageToServer len env).result = "ERROR") := by
  rcases env with ⟨a, c, b⟩
  cases a
  · exact ⟨rfl, fun _ => ⟨rfl, rfl⟩⟩
  · constructor
    · unfold sendImageToServer
      simp only
      rw [if_neg (by simp)]
      split <;> (try split) <;> rfl
    · intro h
      simp at h

/-- C8 witness: the amended statement at a concrete failing allocation. -/
theorem c8_witness :
    (sendImageToServer 7 ⟨false, 0, none⟩).totalLen = headStr.length + 7 + tailStr.length
    ∧ (sendImageToServer 7 ⟨false, 0, none⟩).postAttempted = false
    ∧ (sendImageToServer 7 ⟨false, 0, none⟩).result = "ERROR" := by
  obtain ⟨h1, h2⟩ := c8_allocation_amended 7 ⟨false, 0, none⟩
  obtain ⟨h3, h4⟩ := h2 rfl
  exact ⟨h1, h3, h4⟩

/-- C4 counterexample: with a prior RED_ON state and a failure streak
below the threshold, the handler does not leave the prior indicator state
in effect: after the call both indicators are off. -/
theorem c4_counterexample :
    (⟨true, false, 0, 0⟩ : ClientState).redLed = true
    ∧ (⟨true, false, 0, 0⟩ : ClientState).consecutiveFailures + 1 < MAX_FAILURES
    ∧ (handleFailure ⟨true, false, 0, 0⟩).state.redLed = false
    ∧ (handleFailure ⟨true, false, 0, 0⟩).state.greenLed = false := by
  decide

/-- C4 amended: for every failing cycle below the threshold, the handler
blinks both indicators (both on, then both off) and returns with both
indicators off, clearing any previously-set RED_ON or GREEN_ON state; the
failure streak is incremented. -/
theorem c4_transient_amended (st : ClientState)
    (h : st.consecutiveFailures + 1 < MAX_FAILURES) :
    (handleFailure st).ledWrites = [(true, true), (false, false)]
    ∧ (handleFailure st).state.redLed = false
    ∧ (handleFailure st).state.greenLed = false
    ∧ (handleFailure st).state.consecutiveFailures = st.consecutiveFailures + 1 := by
  have hinc : incWrap32 st.consecutiveFailures = st.consecutiveFailures + 1 := by
    simp only [MAX_FAILURES] at h
    exact incWrap32_of_lt _ (by simp only [W]; omega)
  have hneg : ¬ (MAX_FAILURES : Int) ≤ toSigned32 (incWrap32 st.consecutiveFailures) := by
    rw [hinc, toSigned32_of_lt _ (by simp only [MAX_FAILURES] at h; omega)]
    simp only [MAX_FAILURES] at h ⊢
    omega
  simp only [handleFailure]
  rw [if_neg hneg]
  exact ⟨rfl, rfl, rfl, hinc⟩

/-- C4 witness: the amended statement at a concrete below-threshold state
that had RED_ON set by an earlier cycle. -/
theorem c4_witness :
    (handleFailure ⟨true, false, 0, 0⟩).ledWrites = [(true, true), (false, false)]
    ∧ (handleFailure ⟨true, false, 0, 0⟩).state.redLed = false
    ∧ (handleFailure ⟨true, false, 0, 0⟩).state.greenLed = false
    ∧ (handleFailure ⟨true, false, 0, 0⟩).state.consecutiveFailures = 0 + 1 :=
  c4_transient_amended ⟨true, false, 0, 0⟩ (by decide)

/-- C9: the code increments the failure counter with no clamp; under the
two's-complement semantics of the 32-bit `int` the counter reaches the
threshold after 5 failures but wraps after 2 ^ 31 consecutive failures to
the value -2147483648, which is below the threshold — the counter does not
saturate, contradicting the claim that it stays at or above the threshold
and never wraps. -/
theorem c9_overflow_wrap :
    streakAfter MAX_FAILURES = MAX_FAILURES
    ∧ toSigned32 (streakAfter MAX_FAILURES) = 5
    ∧ streakAfter 2147483648 = 2147483648
    ∧ toSigned32 (streakAfter 2147483648) = -2147483648
    ∧ toSigned32 (streakAfter 2147483648) < (MAX_FAILURES : Int) := by
  have hb : streakAfter 2147483648 = 2147483648 := by
    rw [streakAfter_eq, W]
  have h5 : streakAfter MAX_FAILURES = MAX_FAILURES := by
    rw [streakAfter_eq, W, MAX_FAILURES]
  refine ⟨h5, ?_, hb, ?_, ?_⟩
  · rw [h5]; decide
  · rw [hb]; decide
  · rw [hb]; decide

/-- C1 counterexample: the claimed unconditional persistence fails at the
int overflow. A state with the indicator at GREEN_ON, RED_OFF and the
counter at INT_MAX — the pattern reached by 2147483647 consecutive
failures, as `streakAfter` shows — undergoes one more UNKNOWN cycle: the
counter wraps to INT_MIN, the signed threshold test fails, and the handler
ends with both indicators OFF although no RED or GREEN decision occurred. -/
theorem c1_counterexample :
    streakAfter 2147483647 = 2147483647
    ∧ (MAX_FAILURES : Int) ≤ toSigned32 2147483647
    ∧ cycleOutcome none (⟨true, 200, none⟩ : SendEnv) = .UNKNOWN
    ∧ (runCycle ⟨false, true, 2147483647, 0⟩ 0 none ⟨true, 200, none⟩).state.greenLed = false
    ∧ (runCycle ⟨false, true, 2147483647, 0⟩ 0 none ⟨true, 200, none⟩).state.redLed = false := by
  refine ⟨?_, ?_, ?_, ?_, ?_⟩
  · rw [streakAfter_eq, W]
  · decide
  · rfl
  · decide
  · decide

/-- C1 amended: a failing cycle that pushes the failure streak to the
threshold sets the indicator to exactly GREEN_ON with RED_OFF, and that
indicator state persists through further UNKNOWN cycles as long as the
32-bit counter has not overflowed INT_MAX (any continuation of at most
2147483647 - streak further failing cycles); at the overflow the counter
wraps negative and the handler ends with both indicators off (the C9
defect), so the unconditional claim is restricted to the non-overflowed
range. -/
theorem c1_fail_open_persists (st : ClientState) (t : Nat)
    (frame : Option Nat) (env : SendEnv)
    (rest : List (Nat × Option Nat × SendEnv))
    (hth : MAX_FAILURES ≤ st.consecutiveFailures + 1)
    (hbound : st.consecutiveFailures + 1 + rest.length ≤ 2147483647)
    (h0 : cycleOutcome frame env = .UNKNOWN)
    (hall : ∀ x ∈ rest, cycleOutcome x.2.1 x.2.2 = .UNKNOWN) :
    ((runCycle st t frame env).state.redLed = false
      ∧ (runCycle st t frame env).state.greenLed = true)
    ∧ (runCycles (runCycle st t frame env).state rest).redLed = false
    ∧ (runCycles (runCycle st t frame env).state rest).greenLed = true := by
  have h1 : (runCycle st t frame env).state.consecutiveFailures = st.consecutiveFailures + 1
      ∧ (runCycle st t frame env).state.redLed = false
      ∧ (runCycle st t frame env).state.greenLed = true := by
    rw [runCycle_state_of_unknown st t frame env h0]
    exact failOpen_handleFailure { st with lastCapture := millisOf t }
      (show MAX_FAILURES ≤ st.consecutiveFailures + 1 from hth)
      (show st.consecutiveFailures + 1 ≤ 2147483647 by omega)
  obtain ⟨ha, hb, hc⟩ := h1
  obtain ⟨h3, h4⟩ := failOpen_fold rest _ (by rw [ha]; exact hth)
    (by rw [ha]; omega) hb hc hall
  exact ⟨⟨hb, hc⟩, h3, h4⟩

/-- C1 witness: from a streak of 4, a camera failure (the fifth failure)
turns the indicator to GREEN_ON, RED_OFF, and a further failing cycle with
a transport error leaves it there. -/
theorem c1_witness :
    ((runCycle ⟨false, false, 4, 0⟩ 0 none ⟨true, 200, none⟩).state.redLed = false
      ∧ (runCycle ⟨false, false, 4, 0⟩ 0 none ⟨true, 200, none⟩).state.greenLed = true)
    ∧ (runCycles (runCycle ⟨false, false, 4, 0⟩ 0 none ⟨true, 200, none⟩).state
        [(3000, some 3, ⟨true, -1, none⟩)]).redLed = false
    ∧ (runCycles (runCycle ⟨false, false, 4, 0⟩ 0 none ⟨true, 200, none⟩).state
        [(3000, some 3, ⟨true, -1, none⟩)]).greenLed = true :=
  c1_fail_open_persists ⟨false, false, 4, 0⟩ 0 none ⟨true, 200, none⟩
    [(3000, some 3, ⟨true, -1, none⟩)] (by decide) (by decide) (by decide) (by decide)

/-- C2 counterexample: the claimed increment-by-exactly-1 fails at the int
overflow. With the counter at INT_MAX (2147483647), one more UNKNOWN cycle
(a camera failure) wraps the counter to INT_MIN instead of adding 1. -/
theorem c2_counterexample :
    cycleOutcome none (⟨true, 200, none⟩ : SendEnv) = .UNKNOWN
    ∧ toSigned32 ((⟨false, false, 2147483647, 0⟩ : ClientState).consecutiveFailures)
        = 2147483647
    ∧ toSigned32 (runCycle ⟨false, false, 2147483647, 0⟩ 0 none
        ⟨true, 200, none⟩).state.consecutiveFailures = -2147483648
    ∧ toSigned32 (runCycle ⟨false, false, 2147483647, 0⟩ 0 none
        ⟨true, 200, none⟩).state.consecutiveFailures
      ≠ toSigned32 ((⟨false, false, 2147483647, 0⟩ : ClientState).consecutiveFailures) + 1 := by
  refine ⟨rfl, ?_, ?_, ?_⟩ <;> decide

/-- C2 amended: the failure streak is set to exactly 0 when the cycle
decision is RED or GREEN; every UNKNOWN cycle — camera acquisition
failure, allocation/transport failure, non-OK HTTP status, or JSON parse
failure — updates the counter by the unclamped 32-bit increment
`incWrap32`, which adds exactly 1 whenever the counter is below INT_MAX
but wraps INT_MAX to INT_MIN (the C9 defect); loop iterations that fire
no cycle leave the counter unchanged. -/
theorem c2_streak_update (st : ClientState) (t : Nat)
    (frame : Option Nat) (env : SendEnv) :
    (∀ len, frame = some len →
        ((sendImageToServer len env).result = "RED"
            ∨ (sendImageToServer len env).result = "GREEN" →
          (runCycle st t frame env).state.consecutiveFailures = 0)
        ∧ ((sendImageToServer len env).result ≠ "RED" →
            (sendImageToServer len env).result ≠ "GREEN" →
          (runCycle st t frame env).state.consecutiveFailures
            = incWrap32 st.consecutiveFailures))
    ∧ (frame = none →
        (runCycle st t frame env).state.consecutiveFailures
          = incWrap32 st.consecutiveFailures)
    ∧ (∀ len, frame = some len → env.allocOk = false →
        (runCycle st t frame env).state.consecutiveFailures
          = incWrap32 st.consecutiveFailures)
    ∧ (∀ len, frame = some len → env.httpCode ≠ HTTP_CODE_OK →
        (runCycle st t frame env).state.consecutiveFailures
          = incWrap32 st.consecutiveFailures)
    ∧ (∀ len, frame = some len → env.allocOk = true → env.httpCode = HTTP_CODE_OK →
        env.body = none →
        (runCycle st t frame env).state.consecutiveFailures
          = incWrap32 st.consecutiveFailures)
    ∧ (st.consecutiveFailures < 2147483647 →
        incWrap32 st.consecutiveFailures = st.consecutiveFailures + 1)
    ∧ (st.consecutiveFailures < W → st.consecutiveFailures ≠ 2147483647 →
        toSigned32 (incWrap32 st.consecutiveFailures)
          = toSigned32 st.consecutiveFailures + 1)
    ∧ (∀ wifi, (loopIterPart000 st wifi t frame env).fired = false →
        (loopIterPart000 st wifi t frame env).state.consecutiveFailures
          = st.consecutiveFailures)
    ∧ (∀ wifi, (loopIterIno st wifi t frame env).fired = false →
        (loopIterIno st wifi t frame env).state.consecutiveFailures
          = st.consecutiveFailures) := by
  have herr : ∀ len, (sendImageToServer len env).result = "ERROR" →
      (runCycle st t (some len) env).state.consecutiveFailures
        = incWrap32 st.consecutiveFailures := by
    intro len he
    rw [runCycle_some_state, he,
      applyDecision_unknown _ _ (by decide) (by decide),
      handleFailure_consecutiveFailures]
  refine ⟨?_, ?_, ?_, ?_, ?_, ?_, ?_, ?_, ?_⟩
  · intro len h
    subst h
    constructor
    · intro hd
      rw [runCycle_some_state]
      exact applyDecision_definite _ _ hd
    · intro h1 h2
      rw [runCycle_some_state, applyDecision_unknown _ _ h1 h2,
        handleFailure_consecutiveFailures]
  · intro h
    subst h
    rw [runCycle_none_state, handleFailure_consecutiveFailures]
  · intro len h ha
    subst h
    exact herr len (send_result_of_allocFail len env ha)
  · intro len h hc
    subst h
    exact herr len (send_result_of_badStatus len env hc)
  · intro len h ha hc hb
    subst h
    exact herr len (send_result_of_parseFail len env ha hc hb)
  · intro h
    exact incWrap32_of_lt _ (by simp only [W]; omega)
  · intro h1 h2
    exact toSigned32_incWrap32 _ h1 h2
  · intro wifi h
    simp only [loopIterPart000] at h ⊢
    by_cases hw : wifi = false
    · rw [if_pos hw]
    · rw [if_neg hw] at h ⊢
      by_cases hg : CAPTURE_INTERVAL_MS ≤ usub32 (millisOf t) st.lastCapture
      · rw [if_pos hg] at h
        simp at h
      · rw [if_neg hg]
  · intro wifi h
    simp only [loopIterIno] at h ⊢
    by_cases hg : CAPTURE_INTERVAL_MS ≤ usub32 (millisOf t) st.lastCapture
    · rw [if_pos hg] at h
      simp at h
    · rw [if_neg hg]

/-- C2 witness: a camera failure updates a zero streak by the wrapping
increment, a definite RED response resets a nonzero streak to zero, and
below INT_MAX the wrapping increment is plain +1. -/
theorem c2_witness :
    (runCycle ⟨false, false, 0, 0⟩ 0 none ⟨true, 200, none⟩).state.consecutiveFailures
        = incWrap32 0
    ∧ (runCycle ⟨false, false, 3, 0⟩ 0 (some 4)
        ⟨true, 200, some (.obj [("cars", .num 2), ("decision", .str "RED")])⟩).state.consecutiveFailures = 0
    ∧ incWrap32 0 = 0 + 1 :=
  ⟨(c2_streak_update ⟨false, false, 0, 0⟩ 0 none ⟨true, 200, none⟩).2.1 rfl,
   ((c2_streak_update ⟨false, false, 3, 0⟩ 0 (some 4)
      ⟨true, 200, some (.obj [("cars", .num 2), ("decision", .str "RED")])⟩).1 4 rfl).1
      (Or.inl (by decide)),
   (c2_streak_update ⟨false, false, 0, 0⟩ 0 none ⟨true, 200, none⟩).2.2.2.2.2.1
      (by decide)⟩

/-- C3 counterexample: in the `loop()` of `src/esp32_traffic_client.ino`
a disconnected iteration is NOT skipped: with Wi-Fi down and the timer
elapsed, the iteration acquires a frame, attempts the upload, and changes
the failure streak, contradicting the claim. -/
theorem c3_counterexample :
    (loopIterIno ⟨false, false, 0, 0⟩ false 3000 (some 10) ⟨true, -1, none⟩).frameEvents
        = [.acquire, .release]
    ∧ (loopIterIno ⟨false, false, 0, 0⟩ false 3000 (some 10) ⟨true, -1, none⟩).didUpload = true
    ∧ (loopIterIno ⟨false, false, 0, 0⟩ false 3000 (some 10) ⟨true, -1, none⟩).state.consecutiveFailures = 1 := by
  decide

/-- C3 amended: in the `part_000` listing a disconnected iteration only
attempts reconnection — no acquisition, no upload, state and streak
untouched; in `esp32_traffic_client.ino` a disconnected iteration attempts
reconnection but still proceeds to the timing gate and, when the gate is
open, runs the full capture cycle in the same iteration. -/
theorem c3_disconnected_amended (st : ClientState) (t : Nat)
    (frame : Option Nat) (env : SendEnv) :
    ((loopIterPart000 st false t frame env).state = st
      ∧ (loopIterPart000 st false t frame env).frameEvents = []
      ∧ (loopIterPart000 st false t frame env).didUpload = false
      ∧ (loopIterPart000 st false t frame env).reconnectAttempted = true
      ∧ (loopIterPart000 st false t frame env).fired = false)
    ∧ ((loopIterIno st false t frame env).reconnectAttempted = true
      ∧ (CAPTURE_INTERVAL_MS ≤ usub32 (millisOf t) st.lastCapture →
          (loopIterIno st false t frame env).fired = true
          ∧ (loopIterIno st false t frame env).state = (runCycle st t frame env).state)) := by
  refine ⟨⟨rfl, rfl, rfl, rfl, rfl⟩, ?_, ?_⟩
  · simp only [loopIterIno]
    split <;> rfl
  · intro h
    simp only [loopIterIno]
    rw [if_pos h]
    exact ⟨rfl, rfl⟩

/-- C3 witness: the amended statement at a disconnected iteration with an
elapsed timer, in both listings. -/
theorem c3_witness :
    (loopIterPart000 ⟨false, false, 0, 0⟩ false 3000 (some 10) ⟨true, -1, none⟩).state
        = ⟨false, false, 0, 0⟩
    ∧ (loopIterIno ⟨false, false, 0, 0⟩ false 3000 (some 10) ⟨true, -1, none⟩).fired = true :=
  ⟨(c3_disconnected_amended ⟨false, false, 0, 0⟩ 3000 (some 10) ⟨true, -1, none⟩).1.1,
   ((c3_disconnected_amended ⟨false, false, 0, 0⟩ 3000 (some 10) ⟨true, -1, none⟩).2.2
      (by decide)).1⟩

/-- C6: a 200 response whose JSON object carries a `decision` field that
is exactly the string RED or GREEN (case-sensitive) yields that decision;
a missing field, a non-string value, another string, or malformed JSON
yields UNKNOWN; and the `cars` field has no effect on the decision. -/
theorem c6_response_interpretation (fields : List (String × Json)) (len : Nat) :
    (jsonLookup fields "decision" = some (.str "RED") →
      decisionOfString (sendImageToServer len ⟨true, HTTP_CODE_OK, some (.obj fields)⟩).result = .RED)
    ∧ (jsonLookup fields "decision" = some (.str "GREEN") →
      decisionOfString (sendImageToServer len ⟨true, HTTP_CODE_OK, some (.obj fields)⟩).result = .GREEN)
    ∧ (∀ s, jsonLookup fields "decision" = some (.str s) → s ≠ "RED" → s ≠ "GREEN" →
      decisionOfString (sendImageToServer len ⟨true, HTTP_CODE_OK, some (.obj fields)⟩).result = .UNKNOWN)
    ∧ (jsonLookup fields "decision" = none →
      decisionOfString (sendImageToServer len ⟨true, HTTP_CODE_OK, some (.obj fields)⟩).result = .UNKNOWN)
    ∧ (∀ j, jsonLookup fields "decision" = some j → (∀ s, j ≠ .str s) →
      decisionOfString (sendImageToServer len ⟨true, HTTP_CODE_OK, some (.obj fields)⟩).result = .UNKNOWN)
    ∧ decisionOfString (sendImageToServer len ⟨true, HTTP_CODE_OK, none⟩).result = .UNKNOWN
    ∧ (∀ (v v' : Json) (rest : List (String × Json)),
        decisionOfString (sendImageToServer len
          ⟨true, HTTP_CODE_OK, some (.obj (("cars", v) :: rest))⟩).result
          = decisionOfString (sendImageToServer len
          ⟨true, HTTP_CODE_OK, some (.obj (("cars", v') :: rest))⟩).result) := by
  refine ⟨?_, ?_, ?_, ?_, ?_, ?_, ?_⟩
  · intro h
    rw [send_result_ok]
    simp [decisionField, h, decisionOfString]
  · intro h
    rw [send_result_ok]
    simp [decisionField, h, decisionOfString]
  · intro s h h1 h2
    rw [send_result_ok]
    have hs : decisionField (.obj fields) = s := by
      simp [decisionField, h]
    rw [hs]
    exact (decisionOfString_unknown_iff s).mpr ⟨h1, h2⟩
  · intro h
    rw [send_result_ok]
    simp [decisionField, h, decisionOfString]
  · intro j h hns
    rw [send_result_ok]
    cases j
    case str s => exact absurd rfl (hns s)
    all_goals simp [decisionField, h, decisionOfString]
  · rfl
  · intro v v' rest
    have hl : ∀ u : Json, jsonLookup (("cars", u) :: rest) "decision"
        = jsonLookup rest "decision" := by
      intro u
      simp [jsonLookup]
    rw [send_result_ok, send_result_ok]
    simp [decisionField, hl]

/-- C6 witness: the canonical examples of the spec, through the theorem:
cars 4 with decision GREEN yields GREEN, cars 2 with decision RED yields
RED, a missing decision yields UNKNOWN, malformed JSON yields UNKNOWN,
and decision YELLOW yields UNKNOWN. -/
theorem c6_witness :
    decisionOfString (sendImageToServer 9 ⟨true, HTTP_CODE_OK,
        some (.obj [("cars", .num 4), ("decision", .str "GREEN")])⟩).result = .GREEN
    ∧ decisionOfString (sendImageToServer 9 ⟨true, HTTP_CODE_OK,
        some (.obj [("cars", .num 2), ("decision", .str "RED")])⟩).result = .RED
    ∧ decisionOfString (sendImageToServer 9 ⟨true, HTTP_CODE_OK,
        some (.obj [("cars", .num 1)])⟩).result = .UNKNOWN
    ∧ decisionOfString (sendImageToServer 9 ⟨true, HTTP_CODE_OK, none⟩).result = .UNKNOWN
    ∧ decisionOfString (sendImageToServer 9 ⟨true, HTTP_CODE_OK,
        some (.obj [("decision", .str "YELLOW")])⟩).result = .UNKNOWN :=
  ⟨(c6_response_interpretation [("cars", .num 4), ("decision", .str "GREEN")] 9).2.1 rfl,
   (c6_response_interpretation [("cars", .num 2), ("decision", .str "RED")] 9).1 rfl,
   (c6_response_interpretation [("cars", .num 1)] 9).2.2.2.1 rfl,
   (c6_response_interpretation [] 9).2.2.2.2.2.1,
   (c6_response_interpretation [("decision", .str "YELLOW")] 9).2.2.1 "YELLOW" rfl
     (by decide) (by decide)⟩

/-- C10: the timing gate re-arms `lastCapture` at the start of every fired
cycle regardless of outcome (in both listings), the unsigned 32-bit
elapsed-time computation equals true elapsed time modulo 2 ^ 32 even
across `millis()` wraparound, and the gate cannot fire again less than
CAPTURE_INTERVAL_MS after the previous fire — so consecutively fired
cycles are at least 3000 ms apart. -/
theorem c10_timing_gate :
    (∀ (st : ClientState) (wifi : Bool) (t : Nat) (frame : Option Nat) (env : SendEnv),
        (loopIterIno st wifi t frame env).fired = true →
        (loopIterIno st wifi t frame env).state.lastCapture = millisOf t)
    ∧ (∀ (st : ClientState) (wifi : Bool) (t : Nat) (frame : Option Nat) (env : SendEnv),
        (loopIterPart000 st wifi t frame env).fired = true →
        (loopIterPart000 st wifi t frame env).state.lastCapture = millisOf t)
    ∧ (∀ a b : Nat, b ≤ a → usub32 (millisOf a) (millisOf b) = (a - b) % W)
    ∧ (∀ t1 t2 : Nat, t1 ≤ t2 → t2 - t1 < CAPTURE_INTERVAL_MS →
        ¬ CAPTURE_INTERVAL_MS ≤ usub32 (millisOf t2) (millisOf t1)) := by
  refine ⟨?_, ?_, ?_, ?_⟩
  · intro st wifi t frame env h
    simp only [loopIterIno] at h ⊢
    by_cases hg : CAPTURE_INTERVAL_MS ≤ usub32 (millisOf t) st.lastCapture
    · rw [if_pos hg]
      exact runCycle_lastCapture st t frame env
    · rw [if_neg hg] at h
      simp at h
  · intro st wifi t frame env h
    simp only [loopIterPart000] at h ⊢
    by_cases hw : wifi = false
    · rw [if_pos hw] at h
      simp at h
    · rw [if_neg hw] at h ⊢
      by_cases hg : CAPTURE_INTERVAL_MS ≤ usub32 (millisOf t) st.lastCapture
      · rw [if_pos hg]
        exact runCycle_lastCapture st t frame env
      · rw [if_neg hg] at h
        simp at h
  · intro a b hba
    simp only [usub32, millisOf, W]
    omega
  · intro t1 t2 h1 h2
    simp only [CAPTURE_INTERVAL_MS] at h2 ⊢
    simp only [usub32, millisOf, W]
    omega

/-- C10 witness: a fired cycle re-arms the timestamp; the modular elapsed
computation is exact across a wraparound of `millis()`; the gate stays
closed 1000 ms after a fire. -/
theorem c10_witness :
    (loopIterIno ⟨false, false, 0, 0⟩ true 3000 none ⟨true, 200, none⟩).state.lastCapture
        = millisOf 3000
    ∧ usub32 (millisOf 4294967300) (millisOf 4294967290) = (4294967300 - 4294967290) % W
    ∧ ¬ CAPTURE_INTERVAL_MS ≤ usub32 (millisOf 1000) (millisOf 0) :=
  ⟨c10_timing_gate.1 ⟨false, false, 0, 0⟩ true 3000 none ⟨true, 200, none⟩ (by decide),
   c10_timing_gate.2.2.1 4294967300 4294967290 (by decide),
   c10_timing_gate.2.2.2 0 1000 (by decide) (by decide)⟩

end TrafficClient
